import Mathlib

/-!
Verification of the resilient scraping pipeline (scraper.py) against its
natural-language specification.  The Python source is shallowly embedded:
the retrying fetcher becomes a pure function over an oracle of per-attempt
outcomes, the HTML/JSON parsing stage becomes executable functions over
`String`/`List Char`, the record extractor becomes a function over an
inductive `Json` value type, and the `main` pipeline becomes the sequential
composition of the three with the source's exception flow made explicit via
`Except`.
-/

namespace Scraper

/-! ## RetryingFetcher: model of `get_html_content` (scraper.py lines 18-70)

The outcome of each underlying HTTP attempt is abstracted by an oracle
`out : Nat → Attempt` giving the result of the i-th attempt (0-based).
The Python constants `RETRY_TIMES = 3` and the `delay` argument (default
1.0s, slept between failed transient attempts) are kept.  The function
returns the triple (returned value, number of attempts made, list of the
individual sleep durations performed between attempts); the Python function
returns `response.content` on success and `None` on every failure path. -/

/-- Outcome of one underlying `requests.get` attempt, as classified by the
source's `except` clauses: success, `requests.HTTPError` (raised by
`raise_for_status` on a 4xx/5xx status), a transient
`requests.RequestException` (connection error, timeout, DNS failure),
`RateLimitException`, or any other unexpected exception. -/
inductive Attempt where
  | success (body : String) : Attempt
  | httpError (code : Nat) : Attempt
  | transient : Attempt
  | rateLimited : Attempt
  | failure : Attempt
deriving DecidableEq, Repr

/-- `RETRY_TIMES = 3` (scraper.py line 15). -/
def RETRY_TIMES : Nat := 3

/-- `RETRY_WAIT = 5` (scraper.py line 16); defined at module level but the
fetch loop sleeps its `delay` argument (default 1) instead. -/
def RETRY_WAIT : Nat := 5

/-- The `for attempt in range(RETRY_TIMES)` loop of `get_html_content`:
`remaining` counts the loop iterations still available (so the Python loop
variable `attempt` equals `RETRY_TIMES - remaining`), `made` counts attempts
already made and `sleeps` records each `time.sleep(delay)` performed.
A transient failure retries (after sleeping `delay`) unless it occurred on
the final iteration (`attempt < RETRY_TIMES - 1` in the source, which is
`remaining > 1` here); every other exception returns `None` at once. -/
def fetchAux (delay : Nat) (out : Nat → Attempt) :
    Nat → Nat → List Nat → Option String × Nat × List Nat
  | 0, made, sleeps => (none, made, sleeps)
  | remaining + 1, made, sleeps =>
    match out made with
    | .success b => (some b, made + 1, sleeps)
    | .httpError _ => (none, made + 1, sleeps)
    | .rateLimited => (none, made + 1, sleeps)
    | .failure => (none, made + 1, sleeps)
    | .transient =>
      if remaining = 0 then (none, made + 1, sleeps)
      else fetchAux delay out remaining (made + 1) (sleeps ++ [delay])

/-- `get_html_content(api_key, url, delay=1.0)` (scraper.py lines 18-70),
as a function of the attempt-outcome oracle.  The returned value is the
fetched body (`some`) or `None` (`none`); the credential and target URL do
not influence the control flow being verified and are omitted. -/
def get_html_content (delay : Nat) (out : Nat → Attempt) :
    Option String × Nat × List Nat :=
  fetchAux delay out RETRY_TIMES 0 []

/-- C1: a run whose attempts all fail transiently makes exactly the
`RETRY_TIMES = 3` attempts, sleeping the fixed `delay` between consecutive
attempts (2 sleeps), and ends in the failure value the source returns after
exhausting the budget (`None`); a run with k-1 transient failures followed
by a success on attempt k ≤ 3 returns the body having made exactly k
attempts, with k-1 fixed-length sleeps. -/
theorem retry_policy (delay : Nat) (out : Nat → Attempt) :
    ((∀ i, i < RETRY_TIMES → out i = .transient) →
      get_html_content delay out =
        (none, RETRY_TIMES, List.replicate (RETRY_TIMES - 1) delay))
    ∧ (∀ k b, 1 ≤ k → k ≤ RETRY_TIMES → out (k - 1) = .success b →
        (∀ i, i < k - 1 → out i = .transient) →
        get_html_content delay out = (some b, k, List.replicate (k - 1) delay)) := by
  constructor
  · intro h
    have h0 := h 0 (by decide)
    have h1 := h 1 (by decide)
    have h2 := h 2 (by decide)
    simp [get_html_content, RETRY_TIMES, fetchAux, h0, h1, h2]
  · intro k b hk1 hk3 hs hpre
    have hk3' : k ≤ 3 := hk3
    interval_cases k
    · simp at hs
      simp [get_html_content, RETRY_TIMES, fetchAux, hs]
    · have h0 := hpre 0 (by decide)
      simp at hs
      simp [get_html_content, RETRY_TIMES, fetchAux, h0, hs]
    · have h0 := hpre 0 (by decide)
      have h1 := hpre 1 (by decide)
      simp at hs
      simp [get_html_content, RETRY_TIMES, fetchAux, h0, h1, hs]

/-- C1 witness: one transient failure then a success on attempt 2. -/
theorem retry_policy_witness :
    get_html_content 1 (fun i => if i = 1 then .success "ok" else .transient) =
      (some "ok", 2, List.replicate 1 1) :=
  (retry_policy 1 _).2 2 "ok" (by decide) (by decide) (by simp)
    (by intro i hi; interval_cases i; simp)

/-- C2 (amended): an HTTP status error on the first attempt is not retried:
the fetcher returns immediately with attempt-count 1 and no sleeps, and the
returned value is `None` regardless of the status code. -/
theorem http_error_no_retry (delay code : Nat) (out : Nat → Attempt)
    (h : out 0 = .httpError code) :
    get_html_content delay out = (none, 1, []) := by
  simp [get_html_content, RETRY_TIMES, fetchAux, h]

/-- C2 witness: a 404 on the first attempt. -/
theorem http_error_no_retry_witness :
    get_html_content 1 (fun _ => .httpError 404) = (none, 1, []) :=
  http_error_no_retry 1 404 _ rfl

/-- C2 counterexample: the claim says the returned outcome carries the
HTTP-status failure kind with its status code, but the source returns the
bare `None` on this path, so the whole outcome of a 404 run and that of a
500 run are the identical value `(None, 1 attempt, no sleeps)` and the
status code is not recoverable from the outcome. -/
theorem http_status_not_carried :
    get_html_content 1 (fun _ => .httpError 404) =
      get_html_content 1 (fun _ => .httpError 500)
    ∧ get_html_content 1 (fun _ => .httpError 404) = (none, 1, [])
    ∧ get_html_content 1 (fun _ => .httpError 500) = (none, 1, []) :=
  ⟨rfl, rfl, rfl⟩

/-- C9: every failure mode of the fetch stage -- an HTTP status error,
exhaustion of the transient-retry budget, a rate-limit signal, or any other
unexpected exception -- yields the same returned value `None` (the model's
return type has no exception channel: the source catches every exception
and returns), so the distinct failure kinds are indistinguishable at the
caller. -/
theorem fetch_failures_collapse (delay code : Nat) :
    (get_html_content delay (fun _ => .httpError code)).1 = none
    ∧ (get_html_content delay (fun _ => .transient)).1 = none
    ∧ (get_html_content delay (fun _ => .rateLimited)).1 = none
    ∧ (get_html_content delay (fun _ => .failure)).1 = none := by
  refine ⟨?_, ?_, ?_, ?_⟩ <;> simp [get_html_content, RETRY_TIMES, fetchAux]

/-! ## ResponseParser: model of `parse_html_to_json` (scraper.py lines 73-102)

The source feeds the raw body to BeautifulSoup, reads `soup.body.text` and
decodes it with `json.loads`.  A `json.JSONDecodeError` is re-raised (the
NotJSON outcome); any other exception -- in particular the
`AttributeError` raised by `soup.body.text` when the markup has no body
element (empty input, binary garbage) -- is also re-raised (the Malformed
outcome). -/

/-- JSON values as decoded by `json.loads` (numbers restricted to
integers, which is all the verified behaviour touches). -/
inductive Json where
  | null : Json
  | bool (b : Bool) : Json
  | num (n : Int) : Json
  | str (s : String) : Json
  | arr (xs : List Json) : Json
  | obj (kvs : List (String × Json)) : Json
deriving Repr

/-- Whether a JSON value is a sequence (`isinstance(v, list)` in the source). -/
def Json.isArr : Json → Bool
  | .arr _ => true
  | _ => false

mutual

/-- Structural equality of JSON values (Python `==` restricted to the
comparisons the source performs). -/
def Json.beq : Json → Json → Bool
  | .null, .null => true
  | .bool a, .bool b => a == b
  | .num a, .num b => a == b
  | .str a, .str b => a == b
  | .arr xs, .arr ys => Json.beqList xs ys
  | .obj kvs, .obj lvs => Json.beqObj kvs lvs
  | _, _ => false

/-- Elementwise equality of JSON sequences. -/
def Json.beqList : List Json → List Json → Bool
  | [], [] => true
  | x :: xs, y :: ys => Json.beq x y && Json.beqList xs ys
  | _, _ => false

/-- Elementwise equality of JSON object members. -/
def Json.beqObj : List (String × Json) → List (String × Json) → Bool
  | [], [] => true
  | (k1, v1) :: xs, (k2, v2) :: ys => k1 == k2 && Json.beq v1 v2 && Json.beqObj xs ys
  | _, _ => false

end

/-- Does `pat` occur at the head of `cs`? -/
def startsWithL : List Char → List Char → Bool
  | [], _ => true
  | _ :: _, [] => false
  | p :: ps, c :: cs => p == c && startsWithL ps cs

/-- Drop leading JSON whitespace. -/
def skipWs : List Char → List Char
  | [] => []
  | c :: cs =>
    if c == ' ' || c == '\n' || c == '\t' || c == '\r' then skipWs cs
    else c :: cs

/-- Read the characters of a string literal up to the closing quote
(escape sequences are not needed by any verified input and are rejected). -/
def parseStrChars : List Char → Option (List Char × List Char)
  | [] => none
  | c :: cs =>
    if c == '"' then some ([], cs)
    else if c == '\\' then none
    else (parseStrChars cs).map (fun r => (c :: r.1, r.2))

/-- Split a maximal run of decimal digits off the front. -/
def takeDigits : List Char → List Char × List Char
  | [] => ([], [])
  | c :: cs =>
    if c.isDigit then
      let r := takeDigits cs
      (c :: r.1, r.2)
    else ([], c :: cs)

/-- Value of a digit run. -/
def digitsToNat (ds : List Char) : Nat :=
  ds.foldl (fun acc c => acc * 10 + (c.toNat - 48)) 0

mutual

/-- Modelled from the spec: the external `json.loads` decoder ("decode it
as JSON").  Recursive-descent over the remaining characters, fuelled; one
JSON value is read and the unconsumed remainder returned. -/
def parseVal : Nat → List Char → Option (Json × List Char)
  | 0, _ => none
  | fuel + 1, input =>
    match skipWs input with
    | [] => none
    | c :: cs =>
      if c == 'n' then
        if startsWithL ['u', 'l', 'l'] cs then some (Json.null, cs.drop 3)
        else none
      else if c == 't' then
        if startsWithL ['r', 'u', 'e'] cs then some (Json.bool true, cs.drop 3)
        else none
      else if c == 'f' then
        if startsWithL ['a', 'l', 's', 'e'] cs then some (Json.bool false, cs.drop 4)
        else none
      else if c == '"' then
        (parseStrChars cs).map (fun r => (Json.str (String.mk r.1), r.2))
      else if c == '-' then
        match takeDigits cs with
        | ([], _) => none
        | (ds, rest) => some (Json.num (-(digitsToNat ds : Int)), rest)
      else if c.isDigit then
        match takeDigits (c :: cs) with
        | (ds, rest) => some (Json.num (digitsToNat ds), rest)
      else if c == '\x5b' then
        parseArrElems fuel cs
      else if c == '\x7b' then
        parseObjElems fuel cs
      else none

/-- Elements of a JSON array after the opening bracket. -/
def parseArrElems : Nat → List Char → Option (Json × List Char)
  | 0, _ => none
  | fuel + 1, input =>
    match skipWs input with
    | [] => none
    | c :: cs =>
      if c == '\x5d' then some (Json.arr [], cs)
      else
        match parseVal fuel (c :: cs) with
        | none => none
        | some (v, rest) =>
          match skipWs rest with
          | [] => none
          | c2 :: cs2 =>
            if c2 == ',' then
              match parseArrElems fuel cs2 with
              | some (Json.arr vs, rest2) => some (Json.arr (v :: vs), rest2)
              | _ => none
            else if c2 == '\x5d' then some (Json.arr [v], cs2)
            else none

/-- Members of a JSON object after the opening brace. -/
def parseObjElems : Nat → List Char → Option (Json × List Char)
  | 0, _ => none
  | fuel + 1, input =>
    match skipWs input with
    | [] => none
    | c :: cs =>
      if c == '\x7d' then some (Json.obj [], cs)
      else if c == '"' then
        match parseStrChars cs with
        | none => none
        | some (key, afterKey) =>
          match skipWs afterKey with
          | [] => none
          | c2 :: cs2 =>
            if c2 == ':' then
              match parseVal fuel cs2 with
              | none => none
              | some (v, rest) =>
                match skipWs rest with
                | [] => none
                | c3 :: cs3 =>
                  if c3 == ',' then
                    match parseObjElems fuel cs3 with
                    | some (Json.obj kvs, rest2) =>
                      some (Json.obj ((String.mk key, v) :: kvs), rest2)
                    | _ => none
                  else if c3 == '\x7d' then
                    some (Json.obj [(String.mk key, v)], cs3)
                  else none
            else none
      else none

end

/-- `json.loads` on a whole string: one value, then only whitespace. -/
def jsonParse (s : String) : Option Json :=
  match parseVal (2 * s.length + 2) s.data with
  | some (j, rest) => if (skipWs rest).isEmpty then some j else none
  | none => none

/-- Modelled from the spec: the external BeautifulSoup step ("the parser
must extract that inner text and decode it").  Finds the first literal
body-open tag and returns the remainder after it; when the markup has no
body element the result is `none` (in the source `soup.body` is `None`). -/
def splitAfterBodyOpen : List Char → Option (List Char)
  | [] => none
  | c :: cs =>
    if startsWithL "<body>".data (c :: cs) then some (cs.drop 5)
    else splitAfterBodyOpen cs

/-- Characters up to the closing body tag (all of them when it is absent,
as BeautifulSoup recovers an unterminated body element). -/
def takeUntilBodyClose : List Char → List Char
  | [] => []
  | c :: cs =>
    if startsWithL "</body>".data (c :: cs) then []
    else c :: takeUntilBodyClose cs

/-- Text content of markup: characters outside tag spans (`soup.body.text`
concatenates the text nodes, dropping nested tags). -/
def stripTagsGo : List Char → Bool → List Char
  | [], _ => []
  | c :: cs, true => if c == '>' then stripTagsGo cs false else stripTagsGo cs true
  | c :: cs, false =>
    if c == '<' then stripTagsGo cs true else c :: stripTagsGo cs false

/-- `soup.body.text` for a raw body: `none` when no body element exists. -/
def extractBodyText (s : String) : Option String :=
  match splitAfterBodyOpen s.data with
  | none => none
  | some rest => some (String.mk (stripTagsGo (takeUntilBodyClose rest) false))

/-- The two terminal parse outcomes of `parse_html_to_json`: the re-raised
`json.JSONDecodeError` (NotJSON) and the re-raised unexpected exception
from the markup step (Malformed). -/
inductive ParseErr where
  | notJSON : ParseErr
  | malformed : ParseErr
deriving DecidableEq, Repr

/-- `parse_html_to_json(html_content)` (scraper.py lines 73-102). -/
def parse_html_to_json (body : String) : Except ParseErr Json :=
  match extractBodyText body with
  | none => .error .malformed
  | some t =>
    match jsonParse t with
    | none => .error .notJSON
    | some j => .ok j

/-- C4: the parser extracts the body text of the markup and decodes it as
JSON: the concrete body whose inner text is an empty data object parses to
exactly that document; any body whose extracted inner text is not valid
JSON fails with NotJSON; and any body with no extractable body element
(empty input, binary garbage) fails with Malformed. -/
theorem parse_contract :
    parse_html_to_json "<html><body>\x7b\"data\":[]\x7d</body></html>" =
      .ok (Json.obj [("data", Json.arr [])])
    ∧ (∀ body t, extractBodyText body = some t → jsonParse t = none →
        parse_html_to_json body = .error ParseErr.notJSON)
    ∧ (∀ body, extractBodyText body = none →
        parse_html_to_json body = .error ParseErr.malformed) := by
  refine ⟨by rfl, ?_, ?_⟩
  · intro body t h1 h2
    simp [parse_html_to_json, h1, h2]
  · intro body h1
    simp [parse_html_to_json, h1]

/-- C4 witness: the spec's two concrete bodies, one with non-JSON inner
text and the empty body, fail with the stated errors. -/
theorem parse_contract_witness :
    parse_html_to_json "<html><body>not json</body></html>" =
      .error ParseErr.notJSON
    ∧ parse_html_to_json "" = .error ParseErr.malformed :=
  ⟨parse_contract.2.1 _ "not json" (by rfl) (by rfl),
   parse_contract.2.2 "" (by rfl)⟩

/-! ## RecordExtractor: model of `extract_user_info` (scraper.py lines 105-153)

The source validates `json_data` with
`not json_data or 'data' not in json_data or not isinstance(json_data['data'], list)`
and raises `ValueError` when the check trips; it then iterates over the
elements building one record per element via `.get`.  The `except ValueError`
clause re-raises with the message "Data extraction error" (the
InvalidShape outcome); any other exception raised inside the loop or by the
check itself (e.g. an `AttributeError` from calling `.get` on a non-dict,
or a `TypeError` from the membership test on a non-container) is caught by
`except Exception` and re-raised with the distinct message
"Unexpected error during data extraction" (the `unexpected` outcome).
The records the source logs are modelled as the returned list. -/

/-- First binding of a key in a decoded JSON object (Python dict lookup;
decoded dicts have unique keys). -/
def lookupKey : List (String × Json) → String → Option Json
  | [], _ => none
  | (k, v) :: rest, key => if k == key then some v else lookupKey rest key

/-- Python truthiness of a decoded JSON value (`not json_data`,
`if not html_content`, `if not json_data` in the source). -/
def pyTruthy : Json → Bool
  | .null => false
  | .bool b => b
  | .num n => n != 0
  | .str s => !s.isEmpty
  | .arr xs => !xs.isEmpty
  | .obj kvs => !kvs.isEmpty

/-- Does `pat` occur as a contiguous run inside `hay`? -/
def containsSub (hay pat : List Char) : Bool :=
  match hay with
  | [] => pat.isEmpty
  | _ :: rest => startsWithL pat hay || containsSub rest pat

/-- Python `key in v` on a decoded JSON value: key lookup on a dict,
membership on a list, contiguous-run containment on a string, and a
`TypeError` (the `error` case) on every non-container value. -/
def pyContains (j : Json) (key : String) : Except Unit Bool :=
  match j with
  | .obj kvs => .ok (kvs.any (fun kv => kv.1 == key))
  | .arr xs => .ok (xs.any (fun x => Json.beq x (Json.str key)))
  | .str s => .ok (containsSub s.data key.data)
  | _ => .error ()

/-- Python `v[key]` on a decoded JSON value: dict lookup (a `KeyError`
when absent), a `TypeError` on everything else. -/
def pyIndex (j : Json) (key : String) : Except Unit Json :=
  match j with
  | .obj kvs =>
    match lookupKey kvs key with
    | some v => .ok v
    | none => .error ()
  | _ => .error ()

/-- Python `v.get(key, dflt)`: only dicts have `.get`; on anything else an
`AttributeError` (the `error` case) is raised. -/
def pyGetD (v : Json) (key : String) (dflt : Json) : Except Unit Json :=
  match v with
  | .obj kvs => .ok ((lookupKey kvs key).getD dflt)
  | _ => .error ()

/-- Python `v.get(key)` with the implicit `None` default, kept as an
absent optional; raises on a non-dict like `pyGetD`. -/
def pyGetOpt (v : Json) (key : String) : Except Unit (Option Json) :=
  match v with
  | .obj kvs => .ok (lookupKey kvs key)
  | _ => .error ()

/-- The top-level shape check of `extract_user_info` (scraper.py line 119):
`ok true` when the check trips (the explicit `ValueError` is raised),
`ok false` when the document passes, `error` when evaluating the check
itself raises (`TypeError` from the membership test). -/
def shapeCheckFails (j : Json) : Except Unit Bool :=
  if !pyTruthy j then .ok true
  else
    match pyContains j "data" with
    | .error e => .error e
    | .ok c =>
      if !c then .ok true
      else
        match pyIndex j "data" with
        | .error e => .error e
        | .ok v => .ok !v.isArr

/-- The `social_media` sub-dict of an extracted record. -/
structure SocialMedia where
  instagram : Option Json
  twitter : Option Json
  youtube : Option Json
  discord : Option Json
  tiktok : Option Json
  facebook : Option Json
deriving Repr

/-- One extracted record (the dict the source logs per element). -/
structure UserRecord where
  user_id : Option Json
  username : Option Json
  bio : Option Json
  social_media : SocialMedia
  profilepic : Option Json
deriving Repr

/-- The per-element body of the extraction loop (scraper.py lines 123-145):
`item.get('channel', ...)`, then `channel_info.get('user', ...)`, then ten
`.get` leaf lookups on the user dict.  The ten leaf `.get` calls all
succeed when `user_info` is a dict and the first of them raises otherwise,
which the final match captures. -/
def extractItem (item : Json) : Except Unit UserRecord :=
  match pyGetD item "channel" (Json.obj []) with
  | .error e => .error e
  | .ok channelInfo =>
    match pyGetD channelInfo "user" (Json.obj []) with
    | .error e => .error e
    | .ok userInfo =>
      match userInfo with
      | .obj ukvs =>
        .ok ⟨lookupKey ukvs "id", lookupKey ukvs "username",
             lookupKey ukvs "bio",
             ⟨lookupKey ukvs "instagram", lookupKey ukvs "twitter",
              lookupKey ukvs "youtube", lookupKey ukvs "discord",
              lookupKey ukvs "tiktok", lookupKey ukvs "facebook"⟩,
             lookupKey ukvs "profilepic"⟩
      | _ => .error ()

/-- The extraction loop: one record per element, in order, stopping at the
first exception. -/
def extractItems : List Json → Except Unit (List UserRecord)
  | [] => .ok []
  | item :: rest =>
    match extractItem item with
    | .error e => .error e
    | .ok r =>
      match extractItems rest with
      | .error e => .error e
      | .ok rs => .ok (r :: rs)

/-- The two terminal extraction outcomes of `extract_user_info`: the
re-raised shape `ValueError` ("Data extraction error", InvalidShape) and
the catch-all re-raise ("Unexpected error during data extraction"). -/
inductive ExtractErr where
  | invalidShape : ExtractErr
  | unexpected : ExtractErr
deriving DecidableEq, Repr

/-- `extract_user_info(json_data)` (scraper.py lines 105-153), with the
logged records as the success value. -/
def extract_user_info (j : Json) : Except ExtractErr (List UserRecord) :=
  match shapeCheckFails j with
  | .error _ => .error .unexpected
  | .ok true => .error .invalidShape
  | .ok false =>
    match pyIndex j "data" with
    | .ok (Json.arr xs) =>
      match extractItems xs with
      | .ok recs => .ok recs
      | .error _ => .error .unexpected
    | _ => .error .unexpected

/-- Attribute lookup on a JSON value that is total: `none` off dicts. -/
def objAttr (j : Json) (key : String) : Option Json :=
  match j with
  | .obj kvs => lookupKey kvs key
  | _ => none

/-- The `channel` object of an element, defaulted like
`item.get('channel', \x7b\x7d)`. -/
def channelOf (item : Json) : Json :=
  (objAttr item "channel").getD (Json.obj [])

/-- The `user` object of an element, defaulted like
`channel_info.get('user', \x7b\x7d)`. -/
def userOf (item : Json) : Json :=
  (objAttr (channelOf item) "user").getD (Json.obj [])

/-- The record the loop body builds for one element, as a total function
(meaningful on elements accepted by `goodItem`). -/
def recordOf (item : Json) : UserRecord :=
  let u := userOf item
  ⟨objAttr u "id", objAttr u "username", objAttr u "bio",
   ⟨objAttr u "instagram", objAttr u "twitter", objAttr u "youtube",
    objAttr u "discord", objAttr u "tiktok", objAttr u "facebook"⟩,
   objAttr u "profilepic"⟩

/-- Elements the loop body survives: the element is a dict, its `channel`
value (when present) is a dict, and the resulting `user` value (when
present) is a dict. -/
def goodItem (item : Json) : Bool :=
  match item with
  | .obj kvs =>
    match lookupKey kvs "channel" with
    | none => true
    | some (.obj ckvs) =>
      match lookupKey ckvs "user" with
      | none => true
      | some (.obj _) => true
      | some _ => false
    | some _ => false
  | _ => false

/-- On a `goodItem` element the loop body returns exactly the projected
record. -/
theorem extractItem_eq_recordOf (item : Json) (h : goodItem item = true) :
    extractItem item = .ok (recordOf item) := by
  match item with
  | .null | .bool _ | .num _ | .str _ | .arr _ => simp [goodItem] at h
  | .obj kvs =>
    match hc : lookupKey kvs "channel" with
    | none =>
      simp [extractItem, pyGetD, hc, recordOf, userOf, channelOf,
        objAttr, lookupKey]
    | some cv =>
      match cv with
      | .null | .bool _ | .num _ | .str _ | .arr _ =>
        simp [goodItem, hc] at h
      | .obj ckvs =>
        match hu : lookupKey ckvs "user" with
        | none =>
          simp [extractItem, pyGetD, hc, hu, recordOf, userOf,
            channelOf, objAttr, lookupKey]
        | some uv =>
          match uv with
          | .null | .bool _ | .num _ | .str _ | .arr _ =>
            simp [goodItem, hc, hu] at h
          | .obj _ =>
            simp [extractItem, pyGetD, hc, hu, recordOf, userOf,
              channelOf, objAttr]

/-- On a list of `goodItem` elements the loop maps the projection over the
list. -/
theorem extractItems_eq_map (xs : List Json)
    (h : ∀ item ∈ xs, goodItem item = true) :
    extractItems xs = .ok (xs.map recordOf) := by
  induction xs with
  | nil => rfl
  | cons x rest ih =>
    have hx := extractItem_eq_recordOf x (h x (by simp))
    have hr := ih (fun item hm => h item (by simp [hm]))
    simp [extractItems, hx, hr]

/-- C3 (amended): for a document binding "data" to a sequence all of whose
elements are dicts with dict-shaped `channel`/`user` values (or those keys
absent), extraction succeeds with exactly one record per element, in input
order, with no deduplication or sorting, and missing nested objects or leaf
fields become absent optionals; elements outside that shape (e.g. a bare
number in the sequence) abort the whole extraction with the catch-all
error, so the per-record tolerance claimed for arbitrary malformed
elements does not hold. -/
theorem extract_tolerant (xs : List Json)
    (h : ∀ item ∈ xs, goodItem item = true) :
    extract_user_info (Json.obj [("data", Json.arr xs)]) =
      .ok (xs.map recordOf) := by
  have hitems := extractItems_eq_map xs h
  simp [extract_user_info, shapeCheckFails, pyTruthy, pyContains, pyIndex,
    lookupKey, Json.isArr, hitems]

/-- C3 witness: a two-element sequence -- an empty dict and a full nested
record -- yields two records in order; the empty dict projects to the
all-absent record. -/
theorem extract_tolerant_witness :
    extract_user_info (Json.obj [("data", Json.arr
        [Json.obj [],
         Json.obj [("channel", Json.obj [("user", Json.obj
           [("id", Json.str "1"), ("username", Json.str "a")])])]])]) =
      .ok [recordOf (Json.obj []),
           recordOf (Json.obj [("channel", Json.obj [("user", Json.obj
             [("id", Json.str "1"), ("username", Json.str "a")])])])] := by
  refine extract_tolerant _ ?_
  intro item hm
  simp at hm
  rcases hm with rfl | rfl <;> rfl

/-- C3 counterexample: the claim says extraction never fails fatally on a
per-record basis even for malformed elements, but a sequence whose sole
element is the number 42 makes the loop body raise (`.get` on a non-dict)
and the whole extraction fail. -/
theorem extract_fatal_on_non_dict_item :
    extract_user_info (Json.obj [("data", Json.arr [Json.num 42])]) =
      .error ExtractErr.unexpected := by
  rfl

/-- Documents passing the source's top-level shape check for the reading
"an object binding the key `data` to a sequence". -/
def wellShaped (j : Json) : Bool :=
  match j with
  | .obj kvs =>
    match lookupKey kvs "data" with
    | some (.arr _) => true
    | _ => false
  | _ => false

/-- A dict with a successful lookup is nonempty, hence truthy, and its
membership test finds the key. -/
theorem lookupKey_any (kvs : List (String × Json)) (key : String) (v : Json)
    (h : lookupKey kvs key = some v) :
    kvs.any (fun kv => kv.1 == key) = true ∧ kvs ≠ [] := by
  induction kvs with
  | nil => simp [lookupKey] at h
  | cons kv rest ih =>
    obtain ⟨k1, v1⟩ := kv
    refine ⟨?_, by simp⟩
    rw [lookupKey] at h
    rw [List.any_cons]
    by_cases hk : (k1 == key) = true
    · simp [hk]
    · rw [if_neg hk] at h
      simp [(ih h).1]

/-- A well-shaped document sails through the top-level check. -/
theorem shapeCheck_of_wellShaped (j : Json) (h : wellShaped j = true) :
    shapeCheckFails j = .ok false := by
  match j with
  | .null | .bool _ | .num _ | .str _ | .arr _ => simp [wellShaped] at h
  | .obj kvs =>
    match hd : lookupKey kvs "data" with
    | none => simp [wellShaped, hd] at h
    | some v =>
      match v with
      | .null | .bool _ | .num _ | .str _ | .obj _ =>
        simp [wellShaped, hd] at h
      | .arr xs =>
        rcases lookupKey_any kvs "data" _ hd with ⟨ha, hne⟩
        simp [shapeCheckFails, pyTruthy, pyContains, pyIndex, hd, ha, hne,
          Json.isArr]

/-- C5 (amended): the InvalidShape error implies the document is not an
object binding "data" to a sequence, and any document binding "data" to a
sequence passes the top-level check; `\x7b"data":"not-a-list"\x7d` is
rejected with InvalidShape.  The converse direction of the claimed
equivalence fails: some non-conforming documents make the membership test
itself raise and surface the catch-all error instead (see the
counterexample). -/
theorem invalid_shape_only_if (j : Json) :
    (extract_user_info j = .error ExtractErr.invalidShape →
      wellShaped j = false)
    ∧ (wellShaped j = true → shapeCheckFails j = .ok false)
    ∧ extract_user_info (Json.obj [("data", Json.str "not-a-list")]) =
        .error ExtractErr.invalidShape := by
  refine ⟨?_, shapeCheck_of_wellShaped j, by rfl⟩
  intro he
  by_contra hws
  rw [Bool.not_eq_false] at hws
  have hchk := shapeCheck_of_wellShaped j hws
  match j with
  | .obj kvs =>
    match hd : lookupKey kvs "data" with
    | none => simp [wellShaped, hd] at hws
    | some v =>
      match v with
      | .null | .bool _ | .num _ | .str _ | .obj _ =>
        simp [wellShaped, hd] at hws
      | .arr xs =>
        rw [extract_user_info.eq_def, hchk] at he
        simp [pyIndex, hd] at he
        rcases hx : extractItems xs with e | recs <;> simp [hx] at he
  | .null | .bool _ | .num _ | .str _ | .arr _ => simp [wellShaped] at hws

/-- C5 witness: the empty data sequence is well shaped and passes the
check. -/
theorem invalid_shape_only_if_witness :
    shapeCheckFails (Json.obj [("data", Json.arr [])]) = .ok false ∧
    extract_user_info (Json.obj [("data", Json.str "not-a-list")]) =
      .error ExtractErr.invalidShape :=
  ⟨(invalid_shape_only_if (Json.obj [("data", Json.arr [])])).2.1 (by rfl),
   (invalid_shape_only_if Json.null).2.2⟩

/-- Is an extraction outcome the InvalidShape error? -/
def isInvalidShapeErr : Except ExtractErr (List UserRecord) → Bool
  | .error .invalidShape => true
  | _ => false

/-- C5 counterexample: the claim's equivalence says every document that is
not an object binding "data" to a sequence fails with InvalidShape; the
bare number 5 is such a document, yet the membership test `'data' in 5`
raises a `TypeError` and the source surfaces the catch-all error -- an
error that is not the InvalidShape one. -/
theorem invalid_shape_iff_fails_cex :
    extract_user_info (Json.num 5) = .error ExtractErr.unexpected
    ∧ isInvalidShapeErr (extract_user_info (Json.num 5)) = false
    ∧ wellShaped (Json.num 5) = false :=
  ⟨rfl, rfl, rfl⟩

/-! ## Pipeline: model of `main` (scraper.py lines 156-186)

`main` fetches, raises `ValueError("Failed to retrieve HTML content.")`
when the result is falsy (both `None` and an empty body), parses, raises
`ValueError("Failed to parse HTML content to JSON.")` when the parsed
document is falsy, and extracts.  Everything runs inside one
`try`/`except Exception` whose handler raises
`ValueError("An error occurred: \x7be\x7d")` -- the message is that literal
text because the source omits the f-string marker, so every failure
surfaces as the same error value. -/

/-- The exception crossing the `try` block of `main` before the catch-all
wraps it: the explicit fetch-failure `ValueError`, a re-raised parse
exception, the explicit falsy-document `ValueError`, or a re-raised
extraction exception. -/
inductive InnerErr where
  | fetchFailed : InnerErr
  | parseExc (e : ParseErr) : InnerErr
  | parseFalsy : InnerErr
  | extractExc (e : ExtractErr) : InnerErr
deriving DecidableEq, Repr

/-- The body of `main`'s `try` block after the fetch result is known. -/
def afterFetch (res : Option String) : Except InnerErr (List UserRecord) :=
  match res with
  | none => .error .fetchFailed
  | some body =>
    if body.isEmpty then .error .fetchFailed
    else
      match parse_html_to_json body with
      | .error e => .error (.parseExc e)
      | .ok j =>
        if !pyTruthy j then .error .parseFalsy
        else
          match extract_user_info j with
          | .error e => .error (.extractExc e)
          | .ok recs => .ok recs

/-- The `try` block of `main` as a function of the attempt oracle. -/
def mainInner (delay : Nat) (out : Nat → Attempt) :
    Except InnerErr (List UserRecord) :=
  afterFetch (get_html_content delay out).1

/-- The one message `main` ever surfaces: the catch-all handler raises
`ValueError` with this literal text (no f-string marker in the source, so
nothing is interpolated). -/
def mainErrMsg : String := "An error occurred: \x7be\x7d"

/-- `main()` (scraper.py lines 156-186): the catch-all `except Exception`
collapses every inner exception into the one generic `ValueError`. -/
def mainRun (delay : Nat) (out : Nat → Attempt) :
    Except String (List UserRecord) :=
  match mainInner delay out with
  | .ok recs => .ok recs
  | .error _ => .error mainErrMsg

/-- C6 (amended): the pipeline runs fetch, then parse, then extract,
short-circuits at the first failing stage returning no partial results --
but every terminal failure surfaces as the same generic untagged
`ValueError` (the constant `mainErrMsg`), carrying neither a stage tag nor
the underlying kind.  Stage order and short-circuiting are visible on
`mainInner`, the state of the run just before the catch-all wrap. -/
theorem pipeline_stage_order (delay : Nat) (out : Nat → Attempt)
    (body : String) (j : Json) :
    ((get_html_content delay out).1 = none →
      mainInner delay out = .error .fetchFailed
      ∧ mainRun delay out = .error mainErrMsg)
    ∧ (∀ e, (get_html_content delay out).1 = some body → body.isEmpty = false →
        parse_html_to_json body = .error e →
        mainInner delay out = .error (.parseExc e)
        ∧ mainRun delay out = .error mainErrMsg)
    ∧ (∀ ex, (get_html_content delay out).1 = some body →
        body.isEmpty = false → parse_html_to_json body = .ok j →
        pyTruthy j = true → extract_user_info j = .error ex →
        mainInner delay out = .error (.extractExc ex)
        ∧ mainRun delay out = .error mainErrMsg)
    ∧ (∀ recs, (get_html_content delay out).1 = some body →
        body.isEmpty = false → parse_html_to_json body = .ok j →
        pyTruthy j = true → extract_user_info j = .ok recs →
        mainRun delay out = .ok recs) := by
  refine ⟨?_, ?_, ?_, ?_⟩
  · intro hf
    simp [mainRun, mainInner, afterFetch, hf]
  · intro e hf hb hp
    simp [mainRun, mainInner, afterFetch, hf, hb, hp]
  · intro ex hf hb hp ht hx
    simp [mainRun, mainInner, afterFetch, hf, hb, hp, ht, hx]
  · intro recs hf hb hp ht hx
    simp [mainRun, mainInner, afterFetch, hf, hb, hp, ht, hx]

/-- C6 witness: a run whose fetched body has non-JSON inner text stops at
the parse stage with the NotJSON exception, then surfaces the generic
message. -/
theorem pipeline_stage_order_witness :
    mainInner 1 (fun _ => .success "<html><body>not json</body></html>") =
      .error (.parseExc ParseErr.notJSON)
    ∧ mainRun 1 (fun _ => .success "<html><body>not json</body></html>") =
      .error mainErrMsg :=
  (pipeline_stage_order 1 _ "<html><body>not json</body></html>" Json.null).2.1
    ParseErr.notJSON (by rfl) (by rfl) (by rfl)

/-- C6 counterexample: the claim says a fetch-success/parse-failure run
surfaces a Parse-stage-tagged error and that no failure is a bare untagged
error; in the source the parse-failure run and a pure fetch-failure run
surface the identical generic error value, so the surfaced error carries
no stage information at all. -/
theorem pipeline_error_untagged :
    mainRun 1 (fun _ => .success "<html><body>not json</body></html>") =
      .error mainErrMsg
    ∧ mainRun 1 (fun _ => .httpError 500) = .error mainErrMsg
    ∧ mainRun 1 (fun _ => .success "<html><body>not json</body></html>") =
      mainRun 1 (fun _ => .httpError 500) := by
  refine ⟨by rfl, by rfl, by rfl⟩

/-- C8: the parse-then-extract stages are a pure function of the fetched
body: any two runs whose fetch stages deliver the same body -- whatever
their attempt histories, retry counts or delays -- produce equal outcome
values, both before and after the catch-all wrap. -/
theorem pipeline_pure_in_body (d1 d2 : Nat) (o1 o2 : Nat → Attempt)
    (body : String)
    (h1 : (get_html_content d1 o1).1 = some body)
    (h2 : (get_html_content d2 o2).1 = some body) :
    mainInner d1 o1 = mainInner d2 o2 ∧ mainRun d1 o1 = mainRun d2 o2 := by
  have hi : mainInner d1 o1 = mainInner d2 o2 := by
    rw [mainInner, mainInner, h1, h2]
  exact ⟨hi, by rw [mainRun, mainRun, hi]⟩

/-- C8 witness: a first-attempt success and a retry-then-success run with
the same body give equal outcomes. -/
theorem pipeline_pure_in_body_witness :
    mainInner 1 (fun _ => .success "<html><body>null</body></html>") =
      mainInner 2 (fun i => if i = 0 then .transient
                            else .success "<html><body>null</body></html>") :=
  (pipeline_pure_in_body 1 2 _ _ "<html><body>null</body></html>"
    (by rfl) (by rfl)).1

/-- C10: a body whose inner markup text is the JSON literal `null` parses
successfully to the falsy document `null`, yet `main` then raises the
"Failed to parse HTML content to JSON." `ValueError` (`parseFalsy`): a
successfully parsed falsy document is treated as a parse failure at the
pipeline level. -/
theorem falsy_document_treated_as_parse_failure :
    parse_html_to_json "<html><body>null</body></html>" = .ok Json.null
    ∧ mainInner 1 (fun _ => .success "<html><body>null</body></html>") =
        .error .parseFalsy
    ∧ mainRun 1 (fun _ => .success "<html><body>null</body></html>") =
        .error mainErrMsg := by
  refine ⟨by rfl, by rfl, by rfl⟩

/-! ## RateLimiter (spec section 4.1)

The limiter itself lives in the external `ratelimit` package; the source
only applies it with `CALLS = 10`, `PERIOD = 60` (scraper.py lines 13-14,
18-19).  The component is modelled from the spec: a sliding window of past
call timestamps; `acquire` computes the minimal admissible time at or
after the arrival time and suspends until it.  Time is a discrete logical
clock (Nat seconds); the state is the list of admitted call timestamps,
newest first. -/

/-- `CALLS = 10` (scraper.py line 13). -/
def CALLS : Nat := 10

/-- `PERIOD = 60` (scraper.py line 14). -/
def PERIOD : Nat := 60

/-- Number of list entries satisfying a test. -/
def countIf (p : Nat → Bool) : List Nat → Nat
  | [] => 0
  | x :: xs => (if p x then 1 else 0) + countIf p xs

/-- The k-th newest admitted timestamp. -/
def nthTime : List Nat → Nat → Option Nat
  | [], _ => none
  | x :: _, 0 => some x
  | _ :: xs, k + 1 => nthTime xs k

/-- Modelled from the spec: how many admitted calls would still lie inside
the trailing window at time `t` (timestamps `x` with `t - PERIOD < x`,
written additively). -/
def recentCount (s : List Nat) (t : Nat) : Nat :=
  countIf (fun x => decide (t < x + PERIOD)) s

/-- Modelled from the spec: the minimal admissible time at or after the
arrival `t` -- `t` itself when fewer than `CALLS` timestamps are in the
trailing window, else the instant the `CALLS`-th newest timestamp leaves
the window. -/
def acquireTime (s : List Nat) (t : Nat) : Nat :=
  if recentCount s t < CALLS then t
  else
    match nthTime s (CALLS - 1) with
    | some x => x + PERIOD
    | none => t

/-- A sequence of acquires: `ds` gives each arrival as a delay after the
previous admitted call.  Returns the final timestamp list (newest first)
and the wait each acquire observed. -/
def rlRun : List Nat → Nat → List Nat → List Nat × List Nat
  | s, _, [] => (s, [])
  | s, now, d :: ds =>
    let t := now + d
    let t2 := acquireTime s t
    let rest := rlRun (t2 :: s) t2 ds
    (rest.1, (t2 - t) :: rest.2)

/-- A run of the limiter from the fresh state. -/
def runLimiter (ds : List Nat) : List Nat × List Nat := rlRun [] 0 ds

/-- Number of admitted timestamps inside the window `(t0, t0 + PERIOD]`. -/
def windowCount (s : List Nat) (t0 : Nat) : Nat :=
  countIf (fun x => decide (t0 < x) && decide (x ≤ t0 + PERIOD)) s

/-- Timestamps listed newest first. -/
def DescSorted (s : List Nat) : Prop :=
  List.Pairwise (fun a b => b ≤ a) s

/-- All timestamps are in the past of `t`. -/
def BoundedBy (s : List Nat) (t : Nat) : Prop := ∀ x ∈ s, x ≤ t

/-- A count never exceeds the list length. -/
theorem countIf_le_length (p : Nat → Bool) (s : List Nat) :
    countIf p s ≤ s.length := by
  induction s with
  | nil => simp [countIf]
  | cons x xs ih =>
    by_cases hx : p x <;> simp [countIf, hx] <;> omega

/-- Counting a weaker test counts at least as much. -/
theorem countIf_mono (p q : Nat → Bool) (s : List Nat)
    (h : ∀ x ∈ s, p x = true → q x = true) :
    countIf p s ≤ countIf q s := by
  induction s with
  | nil => simp [countIf]
  | cons x xs ih =>
    have hrest := ih (fun y hy => h y (by simp [hy]))
    by_cases hx : p x
    · have hq := h x (by simp) hx
      simp [countIf, hx, hq]
      omega
    · simp at hx
      simp [countIf, hx]
      split <;> omega

/-- A count of all-false entries is zero. -/
theorem countIf_eq_zero (p : Nat → Bool) (s : List Nat)
    (h : ∀ x ∈ s, p x = false) :
    countIf p s = 0 := by
  induction s with
  | nil => rfl
  | cons x xs ih =>
    have hx := h x (by simp)
    simp [countIf, hx, ih (fun y hy => h y (by simp [hy]))]

/-- Indices below the length hit an element. -/
theorem nthTime_of_lt (s : List Nat) (k : Nat) (h : k < s.length) :
    ∃ x, nthTime s k = some x := by
  induction s generalizing k with
  | nil => simp at h
  | cons a rest ih =>
    match k with
    | 0 => exact ⟨a, rfl⟩
    | k + 1 =>
      simp at h
      exact ih k (by omega)

/-- An indexed element is a member. -/
theorem nthTime_mem (s : List Nat) (k : Nat) (x : Nat)
    (h : nthTime s k = some x) : x ∈ s := by
  induction s generalizing k with
  | nil => simp [nthTime] at h
  | cons a rest ih =>
    match k with
    | 0 => simp [nthTime] at h; simp [h]
    | k + 1 =>
      simp [nthTime] at h
      simp [ih k h]

/-- In a newest-first list, if the test fails at and below the k-th newest
entry then at most k entries pass it. -/
theorem sorted_countIf_le (s : List Nat) (k x : Nat) (p : Nat → Bool)
    (hs : DescSorted s) (hn : nthTime s k = some x)
    (hp : ∀ y, y ≤ x → p y = false) :
    countIf p s ≤ k := by
  induction s generalizing k with
  | nil => simp [nthTime] at hn
  | cons a rest ih =>
    rw [DescSorted, List.pairwise_cons] at hs
    match k with
    | 0 =>
      simp [nthTime] at hn
      have ha : p a = false := hp a (by omega)
      have hz : countIf p rest = 0 :=
        countIf_eq_zero p rest (fun y hy => hp y (by have := hs.1 y hy; omega))
      simp [countIf, ha, hz]
    | k + 1 =>
      simp [nthTime] at hn
      have hrest := ih k hs.2 hn
      by_cases hpa : p a <;> simp [countIf, hpa] <;> omega

/-- In a newest-first list, if the test passes at and above the k-th
newest entry then more than k entries pass it. -/
theorem sorted_le_countIf (s : List Nat) (k x : Nat) (p : Nat → Bool)
    (hs : DescSorted s) (hn : nthTime s k = some x)
    (hp : ∀ y, x ≤ y → p y = true) :
    k + 1 ≤ countIf p s := by
  induction s generalizing k with
  | nil => simp [nthTime] at hn
  | cons a rest ih =>
    rw [DescSorted, List.pairwise_cons] at hs
    match k with
    | 0 =>
      simp [nthTime] at hn
      have hpa : p a = true := hp a (by omega)
      simp [countIf, hpa]
    | k + 1 =>
      simp [nthTime] at hn
      have hmem := nthTime_mem rest k x hn
      have hax : x ≤ a := hs.1 x hmem
      have hrest := ih k hs.2 hn
      simp [countIf, hp a hax]
      omega

/-- An acquire never travels back in time: the admitted instant is at or
after the arrival. -/
theorem acquireTime_ge (s : List Nat) (t : Nat) (hs : DescSorted s) :
    t ≤ acquireTime s t := by
  rw [acquireTime]
  split
  · exact le_refl t
  · rename_i hna
    have hlen : CALLS ≤ s.length := by
      have h1 := countIf_le_length (fun x => decide (t < x + PERIOD)) s
      rw [recentCount] at hna
      omega
    obtain ⟨x, hx⟩ := nthTime_of_lt s (CALLS - 1) (by
      have : 0 < CALLS := by decide
      omega)
    rw [hx]
    by_contra hlt
    push_neg at hlt
    have : recentCount s t ≤ CALLS - 1 := by
      refine sorted_countIf_le s (CALLS - 1) x _ hs hx ?_
      intro y hy
      simp
      omega
    rw [recentCount] at hna
    rw [recentCount] at this
    have hc : CALLS = 10 := rfl
    omega

/-- The admitted instant is itself admissible: strictly fewer than `CALLS`
timestamps remain inside the trailing window there. -/
theorem acquireTime_admissible (s : List Nat) (t : Nat) (hs : DescSorted s) :
    recentCount s (acquireTime s t) < CALLS := by
  rw [acquireTime]
  split
  · assumption
  · rename_i hna
    have hlen : CALLS ≤ s.length := by
      have h1 := countIf_le_length (fun x => decide (t < x + PERIOD)) s
      rw [recentCount] at hna
      omega
    obtain ⟨x, hx⟩ := nthTime_of_lt s (CALLS - 1) (by
      have : 0 < CALLS := by decide
      omega)
    rw [hx]
    have : recentCount s (x + PERIOD) ≤ CALLS - 1 := by
      refine sorted_countIf_le s (CALLS - 1) x _ hs hx ?_
      intro y hy
      simp
      omega
    have : recentCount s (x + PERIOD) < CALLS := by
      have hc : 0 < CALLS := by decide
      omega
    exact this

/-- The limiter invariant: newest-first order, timestamps in the past,
and no window of length `PERIOD` holding more than `CALLS` timestamps. -/
def RLInv (s : List Nat) (now : Nat) : Prop :=
  DescSorted s ∧ BoundedBy s now ∧ ∀ t0, windowCount s t0 ≤ CALLS

/-- One acquire preserves the limiter invariant. -/
theorem rlStep_inv (s : List Nat) (now t : Nat)
    (hinv : RLInv s now) (hnt : now ≤ t) :
    RLInv (acquireTime s t :: s) (acquireTime s t) := by
  obtain ⟨hs, hb, hw⟩ := hinv
  have ht2 : t ≤ acquireTime s t := acquireTime_ge s t hs
  have hble : ∀ x ∈ s, x ≤ acquireTime s t := by
    intro x hx
    have := hb x hx
    omega
  refine ⟨?_, ?_, ?_⟩
  · rw [DescSorted, List.pairwise_cons]
    exact ⟨hble, hs⟩
  · intro x hx
    simp at hx
    rcases hx with rfl | hx
    · exact le_refl _
    · exact hble x hx
  · intro t0
    set t2 := acquireTime s t with ht2def
    by_cases hin : t0 < t2 ∧ t2 ≤ t0 + PERIOD
    · have hmono : windowCount s t0 ≤ recentCount s t2 := by
        refine countIf_mono _ _ s ?_
        intro x _ hx
        simp at hx ⊢
        omega
      have hadm := acquireTime_admissible s t hs
      rw [← ht2def] at hadm
      have h1 : windowCount (t2 :: s) t0 = 1 + windowCount s t0 := by
        simp [windowCount, countIf, hin.1, hin.2]
      omega
    · have h1 : windowCount (t2 :: s) t0 = windowCount s t0 := by
        rw [windowCount, countIf]
        have : (decide (t0 < t2) && decide (t2 ≤ t0 + PERIOD)) = false := by
          rcases Decidable.not_and_iff_or_not.mp hin with h | h <;> simp [h]
        rw [this]
        simp [windowCount]
      rw [h1]
      exact hw t0

/-- Any run from an invariant state ends in an invariant state. -/
theorem rlRun_inv (ds : List Nat) (s : List Nat) (now : Nat)
    (hinv : RLInv s now) :
    ∀ t0, windowCount (rlRun s now ds).1 t0 ≤ CALLS := by
  induction ds generalizing s now with
  | nil => exact hinv.2.2
  | cons d rest ih =>
    have hstep := rlStep_inv s now (now + d) hinv (by omega)
    exact ih _ _ hstep

/-- While fewer than `CALLS` timestamps are recorded an acquire admits the
arrival immediately. -/
theorem rlRun_no_wait (ds : List Nat) (s : List Nat) (now : Nat)
    (h : s.length + ds.length ≤ CALLS) :
    (rlRun s now ds).2 = List.replicate ds.length 0 := by
  induction ds generalizing s now with
  | nil => rfl
  | cons d rest ih =>
    have hadm : recentCount s (now + d) < CALLS := by
      have h1 := countIf_le_length (fun x => decide (now + d < x + PERIOD)) s
      rw [recentCount]
      simp at h
      omega
    have ht2 : acquireTime s (now + d) = now + d := by
      rw [acquireTime, if_pos hadm]
    simp only [rlRun, ht2]
    have hrest := ih ((now + d) :: s) (now + d)
      (by simp only [List.length_cons] at h ⊢; omega)
    simp [hrest, List.replicate_succ]

/-- C7: the rate limiter, modelled from the spec with the source's
constants `CALLS = 10`, `PERIOD = 60`: (1) over every sequence of calls,
no window of length `PERIOD` ever contains more than `CALLS` admitted
timestamps, including across bursts; (2) every acquire returns, at a
definite instant no earlier than its arrival (it only delays, never
drops); (3) from a fresh window the first `CALLS` calls are admitted with
zero wait; (4) when the `CALLS`-th newest timestamp is still inside the
window at arrival `t` (an over-budget call), the admitted instant is
exactly that timestamp plus `PERIOD`, so the observed wait is the full
remaining window time of that call. -/
theorem rate_limiter_contract :
    (∀ ds t0, windowCount (runLimiter ds).1 t0 ≤ CALLS)
    ∧ (∀ s t, DescSorted s → t ≤ acquireTime s t)
    ∧ (∀ ds, ds.length ≤ CALLS →
        (runLimiter ds).2 = List.replicate ds.length 0)
    ∧ (∀ s t x, DescSorted s → nthTime s (CALLS - 1) = some x →
        t < x + PERIOD → acquireTime s t = x + PERIOD) := by
  refine ⟨?_, ?_, ?_, ?_⟩
  · intro ds t0
    refine rlRun_inv ds [] 0 ⟨?_, ?_, ?_⟩ t0
    · exact List.Pairwise.nil
    · intro x hx
      simp at hx
    · intro t0'
      simp [windowCount, countIf]
  · intro s t hs
    exact acquireTime_ge s t hs
  · intro ds h
    exact rlRun_no_wait ds [] 0 (by simpa using h)
  · intro s t x hs hn hlt
    have hfull : CALLS ≤ recentCount s t := by
      have := sorted_le_countIf s (CALLS - 1) x
        (fun y => decide (t < y + PERIOD)) hs hn ?_
      · rw [recentCount]
        have hc : 0 < CALLS := by decide
        omega
      · intro y hy
        simp
        omega
    rw [acquireTime, if_neg (by omega), hn]

/-- C7 witness: a burst of twelve simultaneous calls stays within the
window bound; an arrival after one recorded call is not delayed into the
past; three calls from fresh state wait nothing; and with ten in-window
timestamps the eleventh arrival at t = 60 is pushed to 5 + 60 = 65, the
instant the tenth-newest call leaves the window. -/
theorem rate_limiter_contract_witness :
    windowCount (runLimiter [0, 0, 0, 0, 0, 0, 0, 0, 0, 0, 0, 0]).1 0 ≤ CALLS
    ∧ 7 ≤ acquireTime [5] 7
    ∧ (runLimiter [0, 0, 0]).2 = List.replicate 3 0
    ∧ acquireTime [59, 50, 40, 35, 30, 25, 20, 15, 10, 5] 60 = 5 + PERIOD :=
  ⟨rate_limiter_contract.1 _ 0,
   rate_limiter_contract.2.1 [5] 7 (by rw [DescSorted]; decide),
   rate_limiter_contract.2.2.1 _ (by decide),
   rate_limiter_contract.2.2.2 _ 60 5 (by rw [DescSorted]; decide) (by rfl)
     (by decide)⟩

end Scraper
